import Mathlib

/-!
Shallow embedding of `packages/frontend-plugin-api/src/routing/types.ts`
(Backstage frontend routing-reference type declarations).

The TypeScript file is compile-time type machinery plus one runtime
constant.  The embedding renders each type-level operator as a Lean
function over an explicit representation of parameter-shape types, and
the one stateful external dependency (the version-bridge global
singleton accessor) as explicit state passing.

Representation choices:
  * an object type `{ k1: T1, ..., kn: Tn }` is a declaration-ordered
    association list of field names and field value types (`ObjShape`);
  * `AnyRouteParams = { [param in string]: string } | undefined` (and
    the imported `AnyParams`, which the spec describes with the same
    words) is `Option ObjShape`, with `none` standing for `undefined`;
  * `keyof T` is rendered as the declaration-ordered list of the keys
    of `T`, with `keyof undefined = never` rendered as the empty list;
  * field value types are drawn from the small universe `ValueTy`
    (`string` and `never`), enough to decide the indexed-access
    condition `Params[keyof Params] extends never` of `OptionalParams`.
-/

/-- Field value types occurring in route-parameter object shapes.  The
index-signature constraint `{ [param in string]: string }` admits any
subtype, so a field's declared type is `string` or the bottom type
`never` (which is assignable to `string`). -/
inductive ValueTy where
  | string
  | never
deriving DecidableEq, Repr

/-- A defined object type `{ k1: T1, ..., kn: Tn }`: its fields in
declaration order. -/
abbrev ObjShape := List (String × ValueTy)

/-- `AnyRouteParams = { [param in string]: string } | undefined`; `none`
is the `undefined` alternative. -/
abbrev ParamShape := Option ObjShape

/-- The declaration-ordered key list of a defined object shape. -/
def keysOf (s : ObjShape) : List String := s.map Prod.fst

/-- `keyof TParams` for `TParams extends AnyRouteParams`, rendered as a
key list; `keyof undefined` is `never`, rendered as `[]`. -/
def keyofShape (p : ParamShape) : List String :=
  match p with
  | none => []
  | some s => keysOf s

/-- Whether a shape has no keys at all (it is `undefined`, or a defined
shape with an empty field list such as `{}`). -/
def shapeHasNoKeys (p : ParamShape) : Bool := (keyofShape p).isEmpty

/-- `ParamKeys<TParams> = keyof TParams extends never ? [] : (keyof TParams)[]`
(types.ts lines 70-71), with the array type `(keyof TParams)[]` rendered
as the declaration-ordered key list itself. -/
def ParamKeys (p : ParamShape) : List String :=
  if keyofShape p = [] then [] else keyofShape p

/-- The union `Params[keyof Params]` of a defined shape's field value
types is the empty type `never` exactly when every field's value type is
`never` (vacuously so when there are no fields, since `Params[never]`
is `never`). -/
def indexedAccessIsNever (s : ObjShape) : Bool :=
  s.all (fun kv => kv.2 = ValueTy.never)

/-- `OptionalParams<Params> = Params[keyof Params] extends never ? undefined : Params`
(types.ts lines 62-63); its constraint restricts `Params` to defined
object shapes. -/
def OptionalParams (s : ObjShape) : ParamShape :=
  if indexedAccessIsNever s then none else some s

/-- `OptionalParams` extended to all of `AnyRouteParams` by sending
`undefined` to `undefined`, so that iterated application can be
stated. -/
def OptionalParamsLift (p : ParamShape) : ParamShape :=
  p.bind OptionalParams

/-- The Lean type denoted by a field value type. -/
def ParamValue : ValueTy → Type
  | ValueTy.string => String
  | ValueTy.never => Empty

/-- The single `params` argument of a route function: an assignment of a
value of the declared value type to each declared field. -/
def ParamsArg (s : ObjShape) : Type :=
  ∀ i : Fin s.length, ParamValue (s.get i).2

/-- The spread-argument tuple of `RouteFunc`:
`Params extends undefined ? readonly [] : readonly [Params]`
(types.ts lines 39-41), rendered as a list of argument types. -/
def routeFuncTuple (p : ParamShape) : List Type :=
  match p with
  | none => []
  | some s => [ParamsArg s]

/-- The product type of a tuple of argument types (`PUnit` for the empty
tuple). -/
def TupleT : List Type → Type
  | [] => PUnit
  | A :: As => A × TupleT As

/-- `RouteFunc<Params> = (...[params]: Params extends undefined ? readonly [] : readonly [Params]) => string`:
a function from the spread tuple to `string`. -/
def RouteFunc (p : ParamShape) : Type :=
  TupleT (routeFuncTuple p) → String

/-- The number of arguments a `RouteFunc<Params>` value must be called
with: the length of its spread-argument tuple. -/
def RouteFuncArity (p : ParamShape) : Nat :=
  (routeFuncTuple p).length

/-- Modelled from the spec: `getOrCreateGlobalSingleton` of
`@backstage/version-bridge` (imported by types.ts but not part of the
excerpt) keeps process-wide state: a table from keys to already-created
marker values, plus a counter generating fresh `Symbol` identities. -/
structure GlobalStore where
  nextSym : Nat
  table : List (String × Nat)
deriving DecidableEq, Repr

/-- Association-list lookup in the global-singleton table. -/
def lookupKey : List (String × Nat) → String → Option Nat
  | [], _ => none
  | (k, v) :: rest, key => if k = key then some v else lookupKey rest key

/-- Modelled from the spec: the shared-singleton accessor returns the
value already stored under `key`, or on the first request creates a
fresh marker (the factory `() => Symbol('route-ref-type')`), stores it
under `key`, and returns it. -/
def getOrCreateGlobalSingleton (key : String) (σ : GlobalStore) :
    Nat × GlobalStore :=
  match lookupKey σ.table key with
  | some v => (v, σ)
  | none => (σ.nextSym, ⟨σ.nextSym + 1, (key, σ.nextSym) :: σ.table⟩)

/-- `export const routeRefType: unique symbol = getOrCreateGlobalSingleton('route-ref-type', () => Symbol('route-ref-type'))`
(types.ts lines 52-55): the module-initialisation step retrieving the
family marker. -/
def routeRefTypeInit (σ : GlobalStore) : Nat × GlobalStore :=
  getOrCreateGlobalSingleton "route-ref-type" σ

/-- The literal type `'external'` of the `$$routeRefType` field: a type
with exactly one value. -/
inductive RouteRefTypeTag where
  | external
deriving DecidableEq, Repr

/-- `ExternalRouteRef<Params, Optional>` (types.ts lines 82-91): the
field `$$routeRefType: 'external'` (here `routeRefTypeTag`), the field
`params: ParamKeys<Params>`, and the optional field
`optional?: Optional` (`none` = the field is absent). -/
structure ExternalRouteRef where
  routeRefTypeTag : RouteRefTypeTag
  params : List String
  optional : Option Bool
deriving DecidableEq, Repr

/-- Construction of an external route reference descriptor from a
parameter shape (the factory itself is outside the excerpt; the type
forces `routeRefTypeTag` and derives `params` via `ParamKeys`). -/
def mkExternalRouteRef (p : ParamShape) (opt : Option Bool) : ExternalRouteRef :=
  ⟨RouteRefTypeTag.external, ParamKeys p, opt⟩

/-- Modelled from the spec: whether the hosting application may leave
the reference unbound; when the `optional` flag is unset the descriptor
defaults to required binding semantics. -/
def bindingOptional (r : ExternalRouteRef) : Bool :=
  r.optional.getD false

/-- Modelled from the spec: required binding semantics is the negation
of `bindingOptional`. -/
def bindingRequired (r : ExternalRouteRef) : Bool :=
  ! bindingOptional r

/-- Modelled from the spec: `RouteRef` identity (the type is declared
outside the excerpt); only identity comparison of references is
needed. -/
abbrev RouteRef := Nat

/-- The renderable `React.ReactNode` payload, not inspected by the
excerpt. -/
abbrev ReactNode := Unit

/-- `BackstageRouteObject` (types.ts lines 97-103): `caseSensitive`,
the optional `children` list, `element`, `path`, and the
`routeRefs: Set<RouteRef>` association, rendered as a `Finset`. -/
inductive BackstageRouteObject where
  | mk (caseSensitive : Bool)
       (children : Option (List BackstageRouteObject))
       (element : ReactNode)
       (path : String)
       (routeRefs : Finset RouteRef)

def BackstageRouteObject.caseSensitive : BackstageRouteObject → Bool
  | .mk c _ _ _ _ => c

def BackstageRouteObject.children :
    BackstageRouteObject → Option (List BackstageRouteObject)
  | .mk _ ch _ _ _ => ch

def BackstageRouteObject.element : BackstageRouteObject → ReactNode
  | .mk _ _ e _ _ => e

def BackstageRouteObject.path : BackstageRouteObject → String
  | .mk _ _ _ p _ => p

def BackstageRouteObject.routeRefs : BackstageRouteObject → Finset RouteRef
  | .mk _ _ _ _ rr => rr

/-- The children of a node as a list (`[]` when the field is absent). -/
def BackstageRouteObject.childrenList (n : BackstageRouteObject) :
    List BackstageRouteObject :=
  n.children.getD []

/-- All nodes reachable from a root in at most `d` child steps (a full
enumeration once `d` bounds the height of the tree). -/
def nodesToDepth : Nat → BackstageRouteObject → List BackstageRouteObject
  | 0, n => [n]
  | d + 1, n => n :: (n.childrenList.map (nodesToDepth d)).flatten

/-- The paths of the child nodes of each node reachable in at most `d`
steps: each occurrence of a path here is one parent-child edge of the
tree. -/
def childPathsToDepth (d : Nat) (n : BackstageRouteObject) : List String :=
  ((nodesToDepth d n).map (fun m => m.childrenList.map
    BackstageRouteObject.path)).flatten

/-- A shared route reference tagged on two distinct nodes. -/
def refShared : RouteRef := 0

/-- A second route reference, on one node only. -/
def refOther : RouteRef := 1

/-- A leaf node on path "/a" associated with two route references. -/
def nodeA : BackstageRouteObject :=
  .mk true none () "/a" {refShared, refOther}

/-- A leaf node on path "/b" associated with the shared reference. -/
def nodeB : BackstageRouteObject :=
  .mk true none () "/b" {refShared}

/-- A root node owning `nodeA` and `nodeB` as its children. -/
def rootNode : BackstageRouteObject :=
  .mk false (some [nodeA, nodeB]) () "/" ∅

/-- Helper: the one value of the literal type `'external'`. -/
theorem routeRefTypeTag_unique (t : RouteRefTypeTag) :
    t = RouteRefTypeTag.external := by
  cases t
  rfl

/-- Helper: looking up a key at the head of the table. -/
theorem lookupKey_cons_self (k : String) (v : Nat)
    (t : List (String × Nat)) : lookupKey ((k, v) :: t) k = some v := by
  simp [lookupKey]

/-- C1 counterexample: the claim says a `RouteFunc` over a shape with no
keys accepts zero arguments, glossing "no keys" as "undefined/empty".
The empty defined shape `{}` has no keys, yet `{}` does not extend
`undefined`, so `RouteFunc<{}>` takes the one-argument form. -/
theorem routeFunc_arity_noKeys_counterexample :
    shapeHasNoKeys (some []) = true ∧ RouteFuncArity (some []) = 1 := by
  constructor
  · rfl
  · rfl

/-- C1 (amended): the derived route function type requires exactly zero
arguments when the parameter shape is `undefined`, and exactly one
argument (of the parameter-shape type) for every defined shape — in
particular for every shape with one or more keys; no other arity
occurs. -/
theorem routeFunc_arity :
    RouteFuncArity none = 0 ∧
    (∀ s : ObjShape, RouteFuncArity (some s) = 1) ∧
    (∀ p : ParamShape, RouteFuncArity p = 0 ∨ RouteFuncArity p = 1) := by
  refine ⟨rfl, fun s => rfl, fun p => ?_⟩
  cases p with
  | none => exact Or.inl rfl
  | some s => exact Or.inr rfl

/-- C2: two calls to the shared-singleton accessor with the same key
return equal values, and the second call leaves the store unchanged: the
first caller creates the marker (or finds it), every subsequent caller
observes that same value, and nothing invalidates it. -/
theorem getOrCreateGlobalSingleton_idempotent :
    ∀ (key : String) (σ : GlobalStore),
      (getOrCreateGlobalSingleton key
          (getOrCreateGlobalSingleton key σ).2).1
        = (getOrCreateGlobalSingleton key σ).1 ∧
      (getOrCreateGlobalSingleton key
          (getOrCreateGlobalSingleton key σ).2).2
        = (getOrCreateGlobalSingleton key σ).2 := by
  intro key σ
  unfold getOrCreateGlobalSingleton
  cases h : lookupKey σ.table key with
  | some v => simp [h]
  | none => simp [h, lookupKey_cons_self]

/-- C3: the derived key list `ParamKeys` is exactly the shape's key list
in declaration order — equal to `keyof` of the shape for every shape;
for `undefined` it is `[]`, and for `{orgId: string, repoId: string}` it
is `["orgId", "repoId"]`. -/
theorem ParamKeys_eq_keys :
    (∀ p : ParamShape, ParamKeys p = keyofShape p) ∧
    ParamKeys none = [] ∧
    ParamKeys (some [("orgId", ValueTy.string), ("repoId", ValueTy.string)])
      = ["orgId", "repoId"] := by
  refine ⟨fun p => ?_, rfl, rfl⟩
  unfold ParamKeys
  by_cases h : keyofShape p = []
  · simp [h]
  · simp [h]

/-- C8: the route function type derived by `RouteFunc` returns a
`String` for every parameter shape: in the zero-argument form (empty
spread tuple) and in the one-argument form alike, it is a function into
`String`. -/
theorem routeFunc_returns_string :
    (∀ p : ParamShape, ∃ A : Type, RouteFunc p = (A → String)) ∧
    RouteFunc none = (TupleT [] → String) ∧
    (∀ s : ObjShape, RouteFunc (some s) = (TupleT [ParamsArg s] → String)) :=
  ⟨fun p => ⟨TupleT (routeFuncTuple p), rfl⟩, rfl, fun _ => rfl⟩

/-- C4: a descriptor built from the parameter-less shape has an empty
`params` key list; when the `optional` flag is absent the descriptor has
required binding semantics; and the absent-flag descriptor is a state
distinct from both the explicit `optional: false` and the explicit
`optional: true` descriptors (which also differ from each other). -/
theorem externalRouteRef_paramless_default :
    (∀ opt : Option Bool, (mkExternalRouteRef none opt).params = []) ∧
    (mkExternalRouteRef none none).optional = none ∧
    bindingRequired (mkExternalRouteRef none none) = true ∧
    mkExternalRouteRef none none ≠ mkExternalRouteRef none (some false) ∧
    mkExternalRouteRef none none ≠ mkExternalRouteRef none (some true) ∧
    mkExternalRouteRef none (some false)
      ≠ mkExternalRouteRef none (some true) := by
  refine ⟨fun opt => rfl, rfl, rfl, ?_, ?_, ?_⟩ <;> decide

/-- C5: every external route reference carries the fixed family
discriminator `'external'` in its tag field (any two descriptors agree
on it), together with its parameter-name list and optional flag; the
construction fixes all three fields, and the embedding — like the
excerpt, which declares no operation on the type — provides nothing
that alters a descriptor after construction. -/
theorem externalRouteRef_tag_fixed :
    (∀ r : ExternalRouteRef, r.routeRefTypeTag = RouteRefTypeTag.external) ∧
    (∀ (p : ParamShape) (opt : Option Bool),
        (mkExternalRouteRef p opt).routeRefTypeTag = RouteRefTypeTag.external ∧
        (mkExternalRouteRef p opt).params = ParamKeys p ∧
        (mkExternalRouteRef p opt).optional = opt) ∧
    (∀ r r' : ExternalRouteRef, r.routeRefTypeTag = r'.routeRefTypeTag) := by
  refine ⟨fun r => routeRefTypeTag_unique _,
    fun p opt => ⟨rfl, rfl, rfl⟩, fun r r' => ?_⟩
  exact (routeRefTypeTag_unique _).trans (routeRefTypeTag_unique _).symm

/-- C6: in the concrete tree `rootNode`, the reference `refShared` is a
member of the `routeRefs` sets of the two distinct nodes `nodeA` and
`nodeB`; `nodeA`'s set holds two references; and every child node still
hangs under exactly one parent (each of the child paths occurs exactly
once among the parent-child edges, and the root occurs zero times). -/
theorem routeRefs_many_to_many :
    refShared ∈ nodeA.routeRefs ∧ refShared ∈ nodeB.routeRefs ∧
    nodeA.path ≠ nodeB.path ∧
    refOther ∈ nodeA.routeRefs ∧ refShared ≠ refOther ∧
    rootNode.childrenList.map BackstageRouteObject.path = ["/a", "/b"] ∧
    (childPathsToDepth 2 rootNode).count "/a" = 1 ∧
    (childPathsToDepth 2 rootNode).count "/b" = 1 ∧
    (childPathsToDepth 2 rootNode).count "/" = 0 := by
  refine ⟨?_, ?_, ?_, ?_, ?_, ?_, ?_, ?_, ?_⟩ <;> decide

/-- C7 counterexample: marker retrieval is not side-effect-free on its
creating run.  The module-initialisation call of types.ts lines 52-55,
executed on a store that does not yet hold the key (here the empty
store), returns a store different from the one it was given: it has
stored the fresh marker. -/
theorem routing_ops_state_counterexample :
    (routeRefTypeInit ⟨0, []⟩).2 ≠ (⟨0, []⟩ : GlobalStore) := by
  decide

/-- C7 (amended): arity derivation and key-list derivation are pure —
equal inputs give equal results — and marker retrieval is deterministic
and leaves the store unchanged on every run after the marker exists;
but the first retrieval of a key (the creating call) changes the
global store by recording the fresh marker. -/
theorem routing_ops_determinism :
    (∀ p q : ParamShape, p = q →
        RouteFuncArity p = RouteFuncArity q ∧ ParamKeys p = ParamKeys q) ∧
    (∀ (σ : GlobalStore) (key : String) (v : Nat),
        lookupKey σ.table key = some v →
        getOrCreateGlobalSingleton key σ = (v, σ)) ∧
    (∀ (σ : GlobalStore) (key : String),
        lookupKey σ.table key = none →
        (getOrCreateGlobalSingleton key σ).2 ≠ σ) := by
  refine ⟨fun p q h => ?_, fun σ key v h => ?_, fun σ key h => ?_⟩
  · rw [h]
    exact ⟨rfl, rfl⟩
  · unfold getOrCreateGlobalSingleton
    rw [h]
  · unfold getOrCreateGlobalSingleton
    rw [h]
    intro hEq
    have h2 : σ.nextSym + 1 = σ.nextSym := congrArg GlobalStore.nextSym hEq
    exact Nat.succ_ne_self _ h2

/-- C9: `OptionalParams` sends every shape whose indexed-access value
union is the empty type to `undefined` (in particular the shape with no
keys), sends every other shape to itself unchanged, and its extension
to `AnyRouteParams` is idempotent. -/
theorem OptionalParams_collapse_idempotent :
    (∀ s : ObjShape, indexedAccessIsNever s = true → OptionalParams s = none) ∧
    OptionalParams ([] : ObjShape) = none ∧
    (∀ s : ObjShape, indexedAccessIsNever s = false → OptionalParams s = some s) ∧
    (∀ p : ParamShape,
        OptionalParamsLift (OptionalParamsLift p) = OptionalParamsLift p) := by
  refine ⟨fun s h => by simp [OptionalParams, h], rfl,
    fun s h => by simp [OptionalParams, h], fun p => ?_⟩
  cases p with
  | none => rfl
  | some s =>
    show OptionalParamsLift (OptionalParams s) = OptionalParams s
    unfold OptionalParams
    cases h : indexedAccessIsNever s with
    | true => simp [h, OptionalParamsLift]
    | false => simp [h, OptionalParamsLift, OptionalParams]

/-- C10: in every route-tree node the `routeRefs` field is a genuine
set — its underlying multiset has no duplicate, so no reference is
associated twice — while `children` is the one field that can be absent
(both states are realised) and every node determines values for all
five fields. -/
theorem backstageRouteObject_fields :
    (∀ n : BackstageRouteObject, n.routeRefs.val.Nodup) ∧
    (∀ (n : BackstageRouteObject) (r : RouteRef),
        n.routeRefs.val.count r ≤ 1) ∧
    (∃ n : BackstageRouteObject, n.children = none) ∧
    (∃ n : BackstageRouteObject, n.children ≠ none) ∧
    (∀ n : BackstageRouteObject,
        n = BackstageRouteObject.mk n.caseSensitive n.children n.element
          n.path n.routeRefs) := by
  refine ⟨fun n => n.routeRefs.nodup, fun n r => ?_,
    ⟨nodeA, rfl⟩, ⟨rootNode, fun h => Option.noConfusion h⟩, fun n => ?_⟩
  · exact Multiset.nodup_iff_count_le_one.mp n.routeRefs.nodup r
  · cases n
    rfl
